import Mathlib

/-!
Verification of the `dynenum` crate: dynamic/static enums generated from a
one-key YAML schema.

Shallow embedding of:
- `src/lib.rs` (dynamic mode): `Type` (a string wrapper), its `PartialEq`,
  `Hash`, `Display`, `AsRef`, `From<&str>` impls, and `load_types_from_yaml`;
- `src/generated_types.rs` (static mode): the generated `Information` enum
  with `Display`, `FromStr`, `AsRef` and the `ALL_INFORMATION` constant;
- `build.rs` (static generator): the per-variant generation loop and the
  final template assembly;
- the `match_type!` macro: dispatch on `val.as_ref()` over ordered
  literal cases with a fallback arm.

YAML parsing is modelled over an abstract YAML document tree; serde
deserialization of `BTreeMap<String, Vec<String>>` is modelled by sorted
insertion of the document-order entries (a BTreeMap iterates keys in
ascending lexicographic order, and `values().next()` is the value at the
smallest key). The external `convert_case` `to_case(Pascal)` /
`to_case(UpperSnake)` transforms are parameters of the generator model.
-/

set_option autoImplicit false

namespace Dynenum

/-- An abstract YAML document node (the shape serde_yaml exposes):
scalars, sequences of nodes, and mappings from string keys to nodes. -/
inductive Yaml where
  | scalar (s : String)
  | seq (items : List Yaml)
  | map (entries : List (String × Yaml))
deriving Repr

/-- `pub struct Type(pub String);` — a dynamic-mode value wrapping its
canonical string. -/
structure DynType where
  str : String
deriving Repr, DecidableEq

/-- `impl From<&str> for Type { fn from(s) { Type(s.to_string()) } }` —
construction from any string, total. -/
def typeFromStr (s : String) : DynType := ⟨s⟩

/-- `impl PartialEq for Type { fn eq(&self, other) { self.0 == other.0 } }` -/
def dynEq (a b : DynType) : Bool := a.str == b.str

/-- `impl Display for Type { ... self.0.fmt(f) }` — rendering is the
underlying string. -/
def dynDisplay (t : DynType) : String := t.str

/-- `impl AsRef<str> for Type { fn as_ref(&self) { &self.0 } }` -/
def dynAsRef (t : DynType) : String := t.str

/-- `impl Hash for Type { fn hash(&self, state) { self.0.hash(state) } }` —
the hash of a `Type` is the hasher applied to its underlying string; the
hasher itself is a parameter. -/
def dynHash (h : String → Nat) (t : DynType) : Nat := h t.str

/-- serde deserialization of a `String` from a YAML node: succeeds only on
a scalar. -/
def yamlString : Yaml → Option String
  | Yaml.scalar s => some s
  | _ => none

/-- serde deserialization of a `Vec<String>` from a YAML node: succeeds
only on a sequence whose entries are all scalars. -/
def yamlStringSeq : Yaml → Option (List String)
  | Yaml.seq items => items.mapM yamlString
  | _ => none

/-- Lexicographic strict order on character lists, by code point — the
order Rust's `Ord for String` induces (UTF-8 byte order coincides with
code-point order). -/
def charListLt : List Char → List Char → Bool
  | [], [] => false
  | [], _ :: _ => true
  | _ :: _, [] => false
  | c :: cs, d :: ds =>
    if c.toNat < d.toNat then true
    else if d.toNat < c.toNat then false
    else charListLt cs ds

/-- Rust's `Ord for String` (strict part): lexicographic comparison. -/
def strLtB (a b : String) : Bool := charListLt a.data b.data

/-- Insertion into a `BTreeMap<String, Vec<String>>` represented as a list
of entries sorted by key ascending (Rust `String` order = `strLtB`);
inserting an existing key replaces its value. -/
def btreeInsert (k : String) (v : List String) :
    List (String × List String) → List (String × List String)
  | [] => [(k, v)]
  | (k', v') :: rest =>
    if k = k' then (k, v) :: rest
    else if strLtB k k' then (k, v) :: (k', v') :: rest
    else (k', v') :: btreeInsert k v rest

/-- serde deserialization of `TypesYaml(BTreeMap<String, Vec<String>>)`:
the node must be a mapping, every value must deserialize as `Vec<String>`,
and the entries are collected into a BTreeMap (sorted by key). -/
def yamlBTreeMap : Yaml → Option (List (String × List String))
  | Yaml.map entries => do
      let parsed ← entries.mapM (fun kv => do
        let vs ← yamlStringSeq kv.2
        pure (kv.1, vs))
      pure (parsed.foldl (fun acc kv => btreeInsert kv.1 kv.2 acc) [])
  | _ => none

/-- `load_types_from_yaml`: deserialize `TypesYaml`, take
`parsed.0.values().next()` (the value at the smallest key), error
"No enum key found in YAML" when the map is empty, and collect the chosen
variant list into a `HashSet<Type>` (modelled as a `Finset DynType`). The
file-read and serde failure paths collapse into the first error case. -/
def load_types_from_yaml (doc : Yaml) : Except String (Finset DynType) :=
  match yamlBTreeMap doc with
  | none => Except.error "serde_yaml deserialization error"
  | some m =>
    match m.head? with
    | none => Except.error "No enum key found in YAML"
    | some kv => Except.ok (kv.2.map typeFromStr).toFinset

/-- Helper: the YAML sequence node holding the given scalar strings. -/
def seqOf (ss : List String) : Yaml := Yaml.seq (ss.map Yaml.scalar)

/-! ### Static mode: `src/generated_types.rs` -/

/-- The generated `pub enum Information { Email, PhoneNumber, Credential, Date }`. -/
inductive Information where
  | Email
  | PhoneNumber
  | Credential
  | Date
deriving Repr, DecidableEq

/-- `impl Display for Information` — each tag renders to its canonical
string. -/
def Information.display : Information → String
  | Information.Email => "email"
  | Information.PhoneNumber => "phone_number"
  | Information.Credential => "credential"
  | Information.Date => "date"

/-- `impl FromStr for Information` — match on the canonical strings in
declaration order, any other input yields `Err("Unknown type")`. -/
def Information.from_str (s : String) : Except String Information :=
  if s = "email" then Except.ok Information.Email
  else if s = "phone_number" then Except.ok Information.PhoneNumber
  else if s = "credential" then Except.ok Information.Credential
  else if s = "date" then Except.ok Information.Date
  else Except.error "Unknown type"

/-- `impl AsRef<str> for Information` — same table as `Display`. -/
def Information.as_ref : Information → String
  | Information.Email => "email"
  | Information.PhoneNumber => "phone_number"
  | Information.Credential => "credential"
  | Information.Date => "date"

/-- `pub const ALL_INFORMATION: &[&str]` from `src/generated_types.rs`. -/
def ALL_INFORMATION : List String :=
  ["email", "phone_number", "credential", "date"]

/-! ### The `match_type!` macro -/

/-- Expansion core of `match_type!`: a Rust `match` on a string against
ordered literal arms with a final `_ => default` arm — the first literal
equal to the scrutinee wins, otherwise the default arm runs. -/
def matchType {α : Type} (s : String) : List (String × α) → α → α
  | [], d => d
  | (lit, act) :: rest, d => if s = lit then act else matchType s rest d

/-- `match_type!` on a dynamic value: the macro matches on `$val.as_ref()`. -/
def matchTypeDyn {α : Type} (v : DynType) (cases : List (String × α)) (d : α) : α :=
  matchType (dynAsRef v) cases d

/-- `match_type!` on a static tag: the same macro, `as_ref` now being the
generated `AsRef<str> for Information`. -/
def matchTypeStatic {α : Type} (t : Information) (cases : List (String × α)) (d : α) : α :=
  matchType (Information.as_ref t) cases d

/-! ### Static generator: `build.rs` -/

/-- `format!("\"{}\"", s)` — a canonical string as it appears quoted in the
generated `ALL_*` constant. -/
def quoteStr (s : String) : String := "\"" ++ s ++ "\""

/-- The four source-text accumulators and the `all_variants` vector built
by the generation loop in `build.rs`. -/
structure GenPieces where
  enum_variants : String
  display_arms : String
  fromstr_arms : String
  asref_arms : String
  all_variants : List String
deriving Repr, DecidableEq

/-- One iteration of the `for v in variants` loop of `build.rs`: the
variant string `s` is Pascal-cased into the tag identifier and each
accumulator is extended. -/
def genStep (enum_ident : String) (pascal : String → String)
    (acc : GenPieces) (s : String) : GenPieces :=
  let variant := pascal s
  { enum_variants := acc.enum_variants ++ "    " ++ variant ++ ",\n"
    display_arms := acc.display_arms ++ "            " ++ enum_ident ++ "::"
      ++ variant ++ " => " ++ quoteStr s ++ ",\n"
    fromstr_arms := acc.fromstr_arms ++ "            " ++ quoteStr s
      ++ " => Ok(" ++ enum_ident ++ "::" ++ variant ++ "),\n"
    asref_arms := acc.asref_arms ++ "            " ++ enum_ident ++ "::"
      ++ variant ++ " => " ++ quoteStr s ++ ",\n"
    all_variants := acc.all_variants ++ [quoteStr s] }

/-- The whole generation loop of `build.rs`, over the schema's variant
strings in YAML declaration order. -/
def genLoop (enum_ident : String) (pascal : String → String)
    (variants : List String) : GenPieces :=
  variants.foldl (genStep enum_ident pascal) ⟨"", "", "", "", []⟩

/-- The final `format!` template of `build.rs` assembling
`generated_types.rs` from the loop's accumulators. `pascal` and
`upperSnake` stand for the external `convert_case` transforms
`to_case(Pascal)` and `to_case(UpperSnake)`. -/
def buildGenerated (pascal upperSnake : String → String)
    (enum_name : String) (variants : List String) : String :=
  let enum_ident := pascal enum_name
  let const_ident := "ALL_" ++ upperSnake enum_name
  let p := genLoop enum_ident pascal variants
  let all_types := String.intercalate ", " p.all_variants
  "\n#[derive(Debug, Clone, PartialEq, Eq, Hash)]\npub enum " ++ enum_ident
    ++ " \x7b\n" ++ p.enum_variants ++ "\x7d\n\n"
    ++ "impl std::fmt::Display for " ++ enum_ident ++ " \x7b\n"
    ++ "    fn fmt(&self, f: &mut std::fmt::Formatter<\x27_>) -> std::fmt::Result \x7b\n"
    ++ "        let s = match self \x7b\n" ++ p.display_arms
    ++ "        \x7d;\n        write!(f, \"\x7b\x7d\", s)\n    \x7d\n\x7d\n\n"
    ++ "impl std::str::FromStr for " ++ enum_ident ++ " \x7b\n"
    ++ "    type Err = &\x27static str;\n"
    ++ "    fn from_str(s: &str) -> Result<Self, Self::Err> \x7b\n"
    ++ "        match s \x7b\n" ++ p.fromstr_arms
    ++ "            _ => Err(\"Unknown type\"),\n        \x7d\n    \x7d\n\x7d\n\n"
    ++ "impl AsRef<str> for " ++ enum_ident ++ " \x7b\n"
    ++ "    fn as_ref(&self) -> &str \x7b\n"
    ++ "        match self \x7b\n" ++ p.asref_arms
    ++ "        \x7d\n    \x7d\n\x7d\n\n"
    ++ "/// All types as string slices\npub const " ++ const_ident
    ++ ": &[&str] = &[" ++ all_types ++ "];\n"

/-! ### Helper lemmas -/

lemma charListLt_irrefl (a : List Char) : charListLt a a = false := by
  induction a with
  | nil => rfl
  | cons c cs ih => simp [charListLt, Nat.lt_irrefl, ih]

lemma charListLt_asymm (a b : List Char) (h : charListLt a b = true) :
    charListLt b a = false := by
  induction a generalizing b with
  | nil =>
    cases b with
    | nil => simp [charListLt] at h
    | cons d ds => rfl
  | cons c cs ih =>
    cases b with
    | nil => simp [charListLt] at h
    | cons d ds =>
      by_cases h1 : c.toNat < d.toNat
      · have h2 : ¬ d.toNat < c.toNat := Nat.lt_asymm h1
        simp [charListLt, h1, h2]
      · by_cases h2 : d.toNat < c.toNat
        · simp [charListLt, h1, h2] at h
        · simp [charListLt, h1, h2] at h ⊢
          exact ih ds h

lemma strLtB_ne {a b : String} (h : strLtB a b = true) : a ≠ b := by
  intro e
  subst e
  rw [strLtB, charListLt_irrefl] at h
  exact Bool.false_ne_true h

lemma strLtB_asymm {a b : String} (h : strLtB a b = true) : strLtB b a = false :=
  charListLt_asymm a.data b.data h

lemma mapM_loop_yamlString_scalars (ss : List String) (acc : List String) :
    List.mapM.loop yamlString (ss.map Yaml.scalar) acc = some (acc.reverse ++ ss) := by
  induction ss generalizing acc with
  | nil => simp [List.mapM.loop]
  | cons s ss ih => simp [List.mapM.loop, yamlString, ih]

lemma mapM_yamlString_scalars (ss : List String) :
    (ss.map Yaml.scalar).mapM yamlString = some ss := by
  rw [List.mapM, mapM_loop_yamlString_scalars]
  simp

lemma yamlStringSeq_seqOf (ss : List String) :
    yamlStringSeq (seqOf ss) = some ss :=
  mapM_yamlString_scalars ss

lemma genLoop_all_variants_aux (i : String) (p : String → String)
    (vs : List String) (acc : GenPieces) :
    (vs.foldl (genStep i p) acc).all_variants = acc.all_variants ++ vs.map quoteStr := by
  induction vs generalizing acc with
  | nil => simp
  | cons v vs ih => simp [genStep, ih, List.append_assoc]

lemma genLoop_all_variants (i : String) (p : String → String) (vs : List String) :
    (genLoop i p vs).all_variants = vs.map quoteStr := by
  simp [genLoop, genLoop_all_variants_aux]

lemma matchType_no_match {α : Type} (s : String) (cases : List (String × α))
    (d : α) (h : ∀ p ∈ cases, s ≠ p.1) : matchType s cases d = d := by
  induction cases with
  | nil => rfl
  | cons c cs ih =>
    have hc : s ≠ c.1 := h c (List.mem_cons_self c cs)
    calc matchType s (c :: cs) d
        = matchType s cs d := by
          obtain ⟨lit, act⟩ := c
          simp [matchType, hc]
      _ = d := ih (fun p hp => h p (List.mem_cons_of_mem c hp))

lemma yamlBTreeMap_one (k : String) (vs : List String) :
    yamlBTreeMap (Yaml.map [(k, seqOf vs)]) = some [(k, vs)] := by
  simp [yamlBTreeMap, List.mapM, List.mapM.loop, yamlStringSeq_seqOf, btreeInsert]

lemma yamlBTreeMap_two (k1 k2 : String) (v1 v2 : List String) :
    yamlBTreeMap (Yaml.map [(k1, seqOf v1), (k2, seqOf v2)])
      = some (btreeInsert k2 v2 [(k1, v1)]) := by
  simp [yamlBTreeMap, List.mapM, List.mapM.loop, yamlStringSeq_seqOf, btreeInsert]

lemma btreeInsert_gt {k1 k2 : String} (v1 v2 : List String)
    (h : strLtB k1 k2 = true) :
    btreeInsert k2 v2 [(k1, v1)] = [(k1, v1), (k2, v2)] := by
  have hne : k2 ≠ k1 := (strLtB_ne h).symm
  have hgt : strLtB k2 k1 = false := strLtB_asymm h
  simp [btreeInsert, hne, hgt]

lemma btreeInsert_lt {k1 k2 : String} (v1 v2 : List String)
    (h : strLtB k1 k2 = true) :
    btreeInsert k1 v1 [(k2, v2)] = [(k1, v1), (k2, v2)] := by
  have hne : k1 ≠ k2 := strLtB_ne h
  simp [btreeInsert, hne, h]

lemma load_two_keys {k1 k2 : String} (v1 v2 : List String)
    (h : strLtB k1 k2 = true) :
    load_types_from_yaml (Yaml.map [(k1, seqOf v1), (k2, seqOf v2)])
        = Except.ok ((v1.map typeFromStr).toFinset)
      ∧ load_types_from_yaml (Yaml.map [(k2, seqOf v2), (k1, seqOf v1)])
        = Except.ok ((v1.map typeFromStr).toFinset) := by
  constructor
  · rw [load_types_from_yaml, yamlBTreeMap_two, btreeInsert_gt v1 v2 h]
    rfl
  · rw [load_types_from_yaml, yamlBTreeMap_two, btreeInsert_lt v1 v2 h]
    rfl

/-! ### Claim theorems -/

/-- C1 counterexample: a document with two top-level keys is NOT rejected by
`load_types_from_yaml`; on `{a: [x], b: [y]}` it succeeds and returns the
registry built from key `a`. -/
theorem multi_key_accepted :
    load_types_from_yaml (Yaml.map [("a", seqOf ["x"]), ("b", seqOf ["y"])])
      = Except.ok {typeFromStr "x"}
    ∧ (load_types_from_yaml
        (Yaml.map [("a", seqOf ["x"]), ("b", seqOf ["y"])])).isOk = true :=
  ⟨rfl, rfl⟩

/-- C1 (amended): `load_types_from_yaml` fails with "No enum key found in
YAML" when the document has zero top-level keys; with two or more top-level
keys it does not fail, but silently builds the registry from the
lexicographically smallest key's variant list. -/
theorem load_key_count :
    load_types_from_yaml (Yaml.map []) = Except.error "No enum key found in YAML"
    ∧ ∀ (k1 k2 : String) (v1 v2 : List String), strLtB k1 k2 = true →
        load_types_from_yaml (Yaml.map [(k1, seqOf v1), (k2, seqOf v2)])
          = Except.ok ((v1.map typeFromStr).toFinset) := by
  refine ⟨rfl, ?_⟩
  intro k1 k2 v1 v2 h
  exact (load_two_keys v1 v2 h).1

/-- Witness for `load_key_count` at `{a: [x], b: [y]}`. -/
theorem load_key_count_witness :
    strLtB "a" "b" = true
    ∧ load_types_from_yaml (Yaml.map [("a", seqOf ["x"]), ("b", seqOf ["y"])])
        = Except.ok (((["x"] : List String).map typeFromStr).toFinset) :=
  ⟨by decide, load_key_count.2 "a" "b" ["x"] ["y"] (by decide)⟩

/-- C10: with multiple top-level keys, `load_types_from_yaml` does not fail;
it builds the registry from the variant list of the lexicographically
smallest key — the first key of the sorted `BTreeMap`, regardless of
document order — and silently ignores the other key. -/
theorem smallest_key_chosen :
    ∀ (k1 k2 : String) (v1 v2 : List String), strLtB k1 k2 = true →
      load_types_from_yaml (Yaml.map [(k2, seqOf v2), (k1, seqOf v1)])
        = Except.ok ((v1.map typeFromStr).toFinset)
      ∧ load_types_from_yaml (Yaml.map [(k1, seqOf v1), (k2, seqOf v2)])
        = Except.ok ((v1.map typeFromStr).toFinset) := by
  intro k1 k2 v1 v2 h
  exact ⟨(load_two_keys v1 v2 h).2, (load_two_keys v1 v2 h).1⟩

/-- Witness for `smallest_key_chosen`: in `{b: [y], a: [x]}` the key `b`
comes first in document order, yet the registry is built from `a`'s list. -/
theorem smallest_key_chosen_witness :
    strLtB "a" "b" = true
    ∧ load_types_from_yaml (Yaml.map [("b", seqOf ["y"]), ("a", seqOf ["x"])])
        = Except.ok (((["x"] : List String).map typeFromStr).toFinset) :=
  ⟨by decide, (smallest_key_chosen "a" "b" ["x"] ["y"] (by decide)).1⟩

/-- C4: for a successfully loaded single-key schema, the registry is the
(set-valued, hence deduplicated) collection of the key's variant strings:
its set of canonical strings equals the deduplicated set of variants. -/
theorem registry_eq_dedup_variants :
    ∀ (k : String) (vs : List String),
      load_types_from_yaml (Yaml.map [(k, seqOf vs)])
        = Except.ok ((vs.map typeFromStr).toFinset)
      ∧ Finset.image DynType.str ((vs.map typeFromStr).toFinset) = vs.toFinset := by
  intro k vs
  constructor
  · rw [load_types_from_yaml, yamlBTreeMap_one]
    rfl
  · ext s
    simp [typeFromStr]

/-- C2: round-trip in both modes — in static mode
`from_str (as_ref t) = Ok t` for every generated tag; in dynamic mode the
value constructed from `s` renders exactly to `s` and equals the value
constructed from that rendering. -/
theorem round_trip_both_modes :
    (∀ t : Information, Information.from_str (Information.as_ref t) = Except.ok t)
    ∧ (∀ s : String,
        dynDisplay (typeFromStr s) = s
        ∧ typeFromStr (dynDisplay (typeFromStr s)) = typeFromStr s) := by
  constructor
  · intro t
    cases t <;> rfl
  · intro s
    exact ⟨rfl, rfl⟩

/-- C3: static parse failure — for every input that is not one of the
declared canonical variant strings, `Information::from_str` returns the
"Unknown type" error. -/
theorem from_str_unknown :
    ∀ s : String, s ∉ ALL_INFORMATION →
      Information.from_str s = Except.error "Unknown type" := by
  intro s h
  simp only [ALL_INFORMATION, List.mem_cons, List.not_mem_nil, or_false,
    not_or] at h
  obtain ⟨h1, h2, h3, h4⟩ := h
  simp [Information.from_str, h1, h2, h3, h4]

/-- Witness for `from_str_unknown` at the undeclared string "fax". -/
theorem from_str_unknown_witness :
    "fax" ∉ ALL_INFORMATION
    ∧ Information.from_str "fax" = Except.error "Unknown type" :=
  ⟨by decide, from_str_unknown "fax" (by decide)⟩

/-- C5: the static full-listing constant lists the canonical variant
strings in exact YAML declaration order, one (quoted) entry per schema
variant; on the `Information` schema the loop reproduces exactly the
contents of `ALL_INFORMATION`. -/
theorem all_listing_declaration_order :
    ∀ (pascal : String → String) (ident : String) (variants : List String),
      (genLoop ident pascal variants).all_variants = variants.map quoteStr
      ∧ (genLoop ident pascal variants).all_variants.length = variants.length
      ∧ String.intercalate ", " ((genLoop ident pascal ALL_INFORMATION).all_variants)
          = "\"email\", \"phone_number\", \"credential\", \"date\"" := by
  intro p i vs
  refine ⟨genLoop_all_variants i p vs, ?_, ?_⟩
  · rw [genLoop_all_variants]
    exact List.length_map vs quoteStr
  · rw [genLoop_all_variants]
    rfl

/-- C6: dynamic value operations — construction from any string succeeds
(and wraps exactly that string), rendering (`Display`/`AsRef`) is the
identity on the underlying string, equality holds exactly when the
underlying strings are equal, and the hash (the hasher applied to the
underlying string) agrees whenever the strings agree. -/
theorem dyn_value_operations :
    ∀ (a b : DynType) (h : String → Nat) (s : String),
      (dynEq a b = true ↔ a = b)
      ∧ (a = b ↔ a.str = b.str)
      ∧ dynDisplay a = a.str
      ∧ dynAsRef a = a.str
      ∧ (typeFromStr s).str = s
      ∧ (a.str = b.str → dynHash h a = dynHash h b) := by
  intro a b h s
  refine ⟨?_, ?_, rfl, rfl, rfl, ?_⟩
  · cases a
    cases b
    simp [dynEq]
  · cases a
    cases b
    simp
  · intro hs
    simp [dynHash, hs]

/-- Witness for `dyn_value_operations` at two values wrapping "email". -/
theorem dyn_value_operations_witness :
    (typeFromStr "email").str = (typeFromStr "email").str
    ∧ dynHash String.length (typeFromStr "email")
        = dynHash String.length (typeFromStr "email") :=
  ⟨rfl, (dyn_value_operations (typeFromStr "email") (typeFromStr "email")
      String.length "x").2.2.2.2.2 rfl⟩

/-- C7: `match_type!` semantics — the first literal equal to the value's
canonical string wins, the fallback runs when no literal matches (in
particular on value "email" with cases [("email",A),("phone",B)] and
fallback F the result is A, and on value "fax" it is F), and the dispatch
is the same computation on a static tag (via its `as_ref` canonical
string) as on a dynamic value. -/
theorem match_helper_semantics :
    ∀ (α : Type) (A B F d a : α) (cases rest : List (String × α)) (s lit : String),
      matchType s ([] : List (String × α)) d = d
      ∧ matchType s ((s, a) :: rest) d = a
      ∧ (s ≠ lit → matchType s ((lit, a) :: rest) d = matchType s rest d)
      ∧ ((∀ p ∈ cases, s ≠ p.1) → matchType s cases d = d)
      ∧ matchTypeDyn (typeFromStr "email") [("email", A), ("phone", B)] F = A
      ∧ matchTypeDyn (typeFromStr "fax") [("email", A), ("phone", B)] F = F
      ∧ (∀ t : Information, matchTypeStatic t cases d = matchType (Information.as_ref t) cases d)
      ∧ (∀ v : DynType, matchTypeDyn v cases d = matchType v.str cases d) := by
  intro α A B F d a cases rest s lit
  refine ⟨rfl, ?_, ?_, ?_, rfl, rfl, fun t => rfl, fun v => rfl⟩
  · simp [matchType]
  · intro h
    simp [matchType, h]
  · intro h
    exact matchType_no_match s cases d h

/-- Witness for `match_helper_semantics` at concrete inputs. -/
theorem match_helper_semantics_witness :
    matchType "x" [("y", (5 : Nat))] 0 = matchType "x" ([] : List (String × Nat)) 0
    ∧ matchType "x" [("a", (1 : Nat))] 0 = 0 :=
  ⟨(match_helper_semantics Nat 1 2 3 0 5 [("a", 1)] [] "x" "y").2.2.1 (by decide),
   (match_helper_semantics Nat 1 2 3 0 5 [("a", 1)] [] "x" "y").2.2.2.1 (by decide)⟩

/-- C8: generator determinism — the generated source is a function of the
schema alone (identical schemas yield byte-identical output), and the
generation loop iterates the variants in YAML declaration order. -/
theorem generator_deterministic :
    ∀ (pascal upperSnake : String → String) (n1 n2 : String) (v1 v2 : List String),
      n1 = n2 → v1 = v2 →
      buildGenerated pascal upperSnake n1 v1 = buildGenerated pascal upperSnake n2 v2
      ∧ (genLoop (pascal n1) pascal v1).all_variants = v1.map quoteStr := by
  intro p u n1 n2 v1 v2 h1 h2
  subst h1
  subst h2
  exact ⟨rfl, genLoop_all_variants (p n1) p v1⟩

/-- Witness for `generator_deterministic` on a one-variant schema. -/
theorem generator_deterministic_witness :
    buildGenerated id id "information" ["email"]
      = buildGenerated id id "information" ["email"]
    ∧ (genLoop (id "information") id ["email"]).all_variants
      = (["email"] : List String).map quoteStr :=
  generator_deterministic id id "information" "information" ["email"] ["email"] rfl rfl

/-- The `convert_case` Pascal transform restricted to the two colliding
inputs of interest: both "phone_number" and "PhoneNumber" normalize to the
tag identifier "PhoneNumber". -/
def pascalExample : String → String :=
  fun s => if s = "phone_number" then "PhoneNumber" else s

/-- C9 counterexample: on a schema whose two distinct variants
"phone_number" and "PhoneNumber" normalize to the same tag identifier, the
generator does not reject; it emits source whose enum declaration contains
the colliding tag twice and whose parse match keeps both arms. -/
theorem collision_not_rejected :
    (genLoop "Information" pascalExample ["phone_number", "PhoneNumber"]).enum_variants
      = "    PhoneNumber,\n    PhoneNumber,\n"
    ∧ (genLoop "Information" pascalExample ["phone_number", "PhoneNumber"]).fromstr_arms
      = "            \"phone_number\" => Ok(Information::PhoneNumber),\n            \"PhoneNumber\" => Ok(Information::PhoneNumber),\n" :=
  ⟨rfl, rfl⟩

/-- C9 (amended): the generator performs no tag-collision detection — for
any two variant strings normalizing to the same tag identifier it emits
generated source in which that tag appears twice in the enum declaration
and both canonical-string parse arms are present (mapping to the same
tag), reachable only in match order. -/
theorem collision_emitted_as_is :
    ∀ (pascal : String → String) (ident v1 v2 : String), pascal v1 = pascal v2 →
      (genLoop ident pascal [v1, v2]).enum_variants
        = "    " ++ pascal v1 ++ ",\n" ++ "    " ++ pascal v1 ++ ",\n"
      ∧ (genLoop ident pascal [v1, v2]).fromstr_arms
        = "            " ++ quoteStr v1 ++ " => Ok(" ++ ident ++ "::" ++ pascal v1 ++ "),\n"
          ++ "            " ++ quoteStr v2 ++ " => Ok(" ++ ident ++ "::" ++ pascal v1 ++ "),\n" := by
  intro p i v1 v2 h
  constructor
  · show "" ++ "    " ++ p v1 ++ ",\n" ++ "    " ++ p v2 ++ ",\n" = _
    rw [← h]
    simp [String.append_assoc]
  · show "" ++ "            " ++ quoteStr v1 ++ " => Ok(" ++ i ++ "::" ++ p v1 ++ "),\n"
        ++ "            " ++ quoteStr v2 ++ " => Ok(" ++ i ++ "::" ++ p v2 ++ "),\n" = _
    rw [← h]
    simp [String.append_assoc]

/-- Witness for `collision_emitted_as_is` at the colliding pair. -/
theorem collision_emitted_as_is_witness :
    pascalExample "phone_number" = pascalExample "PhoneNumber"
    ∧ (genLoop "Info" pascalExample ["phone_number", "PhoneNumber"]).enum_variants
        = "    " ++ pascalExample "phone_number" ++ ",\n" ++ "    "
          ++ pascalExample "phone_number" ++ ",\n" :=
  ⟨rfl, (collision_emitted_as_is pascalExample "Info" "phone_number" "PhoneNumber" rfl).1⟩

end Dynenum
